import Mathlib

/-!
Verification of the asynchronous job-supervision subsystem of
`src/ui/src-tauri/src/main.rs` (MolDockPipeV2 desktop backend).

The Rust code is shallowly embedded: the global
`HashMap<u64, Option<i32>>` job registry becomes an association list,
process spawning and OS waits become explicit environment parameters,
and the straight-line control flow of `run_moldock_async` becomes a
pure function from those parameters to a result, a final state and a
trace of side-effect events.
-/

namespace MolDock

/-- Embedding of Rust `message.trim().is_empty()`: a string trims to the
empty string exactly when every character is whitespace. -/
def is_blank (s : String) : Bool := s.data.all (fun c => c.isWhitespace)

/-- Embedding of Rust `str::trim` (strip whitespace from both ends),
used by `resolve_project_dir_from_args` on the candidate argument. -/
def rustTrim (s : String) : String :=
  String.mk (((s.data.dropWhile Char.isWhitespace).reverse.dropWhile
      Char.isWhitespace).reverse)

/-- The job registry `JOB_STATUS : HashMap<u64, Option<i32>>`, embedded
as an association list; `insert` prepends, so lookup (first match) sees
the newest binding, matching `HashMap::insert` overwrite semantics. -/
abbrev Registry := List (Nat × Option Int)

/-- `map.insert(k, v)` (overwrite observed through first-match lookup). -/
def Registry.insert (r : Registry) (k : Nat) (v : Option Int) : Registry :=
  (k, v) :: r

/-- `map.get(&k)` : `None` when absent, `Some v` when bound to `v`. -/
def Registry.get (r : Registry) (k : Nat) : Option (Option Int) :=
  (List.find? (fun p => p.1 == k) r).map Prod.snd

/-- The `RunJobStatus` struct returned by `get_run_job_status`. -/
structure RunJobStatus where
  found : Bool
  running : Bool
  exit_code : Option Int
deriving DecidableEq, Repr

/-- The `RunJob` struct returned by a successful `run_moldock_async`. -/
structure RunJob where
  job_id : Nat
  pid : Option Nat
  watcher_pid : Option Nat
deriving DecidableEq, Repr

/-- `get_run_job_status` (main.rs:354-376): match on the registry entry
for `job_id`, synthesizing `found=false` when absent. -/
def get_run_job_status (r : Registry) (job_id : Nat) : RunJobStatus :=
  match r.get job_id with
  | none => { found := false, running := false, exit_code := none }
  | some none => { found := true, running := true, exit_code := none }
  | some (some code) => { found := true, running := false, exit_code := some code }

/-- Payload computed by `write_stop_signal` (main.rs:92-102): the phase
alone when the message trims to empty, else `phase|message`. -/
def write_stop_signal_payload (phase message : String) : String :=
  if is_blank message then phase else phase ++ "|" ++ message

/-- Outcome of the coordinator's `child.wait()` on the worker:
`exited c` embeds `Ok(status)` with `status.code() = c` (the code is
`none` when the OS reports no exit code), `waitErr` embeds `Err(_)`. -/
inductive WaitResult where
  | exited (code : Option Int)
  | waitErr
deriving DecidableEq, Repr

/-- Paired-job coordinator finishing step (main.rs:311-332): the value
inserted into the registry, the stop-signal phase and the message. -/
def paired_finish (r : WaitResult) : Option Int × String × String :=
  match r with
  | .exited st =>
    let code := st.getD 1
    if code = 0 ∨ code = 2 then (some code, "completed", "")
    else (some code, "failed", "runner_exit_code=" ++ toString code)
  | .waitErr => (some 1, "failed", "runner_wait_failed")

/-- Content of the stop-signal file written by the paired coordinator:
`write_stop_signal(&stop_file, phase, &message)` at main.rs:332. -/
def paired_stop_content (r : WaitResult) : String :=
  write_stop_signal_payload (paired_finish r).2.1 (paired_finish r).2.2

/-- Unpaired-job background task (main.rs:248-253): the value inserted
into the registry is `child.wait().ok().and_then(|s| s.code())`. -/
def unpaired_finish (r : WaitResult) : Option Int :=
  match r with
  | .exited st => st
  | .waitErr => none

/-- `resolve_project_dir_from_args` (main.rs:82-90): when the command is
`run <dir> ...` with a trimmed, non-empty, non-flag second argument,
that argument; otherwise the supplied working directory. -/
def resolve_project_dir_from_args (args : List String) (cwd : Option String) :
    Option String :=
  match args with
  | a0 :: a1 :: _ =>
    if a0 == "run" then
      let candidate := rustTrim a1
      if candidate ≠ "" ∧ candidate.data.head? ≠ some '-' then some candidate
      else cwd
    else cwd
  | _ => cwd

/-- Outcomes of the OS calls made by `run_moldock_async`, supplied as
an environment: whether each `Command::spawn` succeeds, the resulting
PIDs, the OS error details on failure, and whether the best-effort
`fs::remove_file` of the stale stop-signal file (whose result the
source discards with `let _ =` at main.rs:265) succeeds. -/
structure AsyncEnv where
  watcherSpawnOk : Bool
  workerSpawnOk : Bool
  watcherPid : Nat
  workerPid : Nat
  watcherErr : String
  workerErr : String
  removeStopFileOk : Bool
deriving DecidableEq, Repr

/-- The process-wide state `run_moldock_async` reads and writes:
`JOB_COUNTER`, the `JOB_STATUS` registry, and whether the project's
stop-signal file `state/stop_progress_watcher` currently exists. -/
structure AsyncState where
  counter : Nat
  registry : Registry
  stopFileExists : Bool
deriving DecidableEq, Repr

/-- Side effects of the launch path, in program order. `spawnWatcher`
and `spawnWorker` are emitted when the corresponding process starts;
`removeStopFile ok` records the attempted (best-effort) deletion of
the stale stop-signal file together with whether the OS removal
succeeded; `killWatcher` when the watcher is force-terminated and
reaped. -/
inductive Event where
  | removeStopFile (ok : Bool)
  | spawnWatcher
  | spawnWorker
  | killWatcher
deriving DecidableEq, Repr

deriving instance DecidableEq for Except

/-- Result, final state and event trace of one `run_moldock_async` call
(the caller-facing part, up to the point the function returns; the
detached coordinator thread is modelled by `paired_finish`,
`unpaired_finish` and the grace-loop functions). -/
structure AsyncOutcome where
  result : Except String RunJob
  state : AsyncState
  events : List Event
deriving DecidableEq, Repr

/-- Worker-launch error message (main.rs:240-245, 301-304). -/
def cliLaunchErrMsg (details : String) : String :=
  "Could not launch Python CLI. Verify Python path and module availability (moldockpipe.cli). Details: "
    ++ details

/-- Watcher-launch error message (main.rs:281-286). -/
def watcherLaunchErrMsg (details : String) : String :=
  "Could not launch Python progress watcher. Verify Python path and module availability (moldockpipe.progress_watcher). Details: "
    ++ details

/-- `run_moldock_async` (main.rs:218-352), caller-facing control flow.
In program order: allocate `job_id` from `JOB_COUNTER` and insert it
into the registry with value `None`; for non-`run` commands spawn just
the worker; for `run` commands resolve the project directory, delete a
pre-existing stop-signal file, spawn the watcher, then spawn the
worker, killing the watcher and returning the error when the worker
spawn fails. -/
def run_moldock_async (env : AsyncEnv) (st : AsyncState) (args : List String)
    (cwd : Option String) : AsyncOutcome :=
  let job_id := st.counter
  let counter1 := st.counter + 1
  let reg1 := st.registry.insert job_id none
  let is_run_command := args.head? == some "run"
  if ¬ is_run_command then
    if env.workerSpawnOk then
      { result := .ok { job_id := job_id, pid := some env.workerPid, watcher_pid := none }
        state := { counter := counter1, registry := reg1, stopFileExists := st.stopFileExists }
        events := [.spawnWorker] }
    else
      { result := .error (cliLaunchErrMsg env.workerErr)
        state := { counter := counter1, registry := reg1, stopFileExists := st.stopFileExists }
        events := [] }
  else
    match resolve_project_dir_from_args args cwd with
    | none =>
      { result := .error "Unable to resolve project directory for run command."
        state := { counter := counter1, registry := reg1, stopFileExists := st.stopFileExists }
        events := [] }
    | some _project_dir =>
      let cleared : Bool × List Event :=
        if st.stopFileExists then
          (! env.removeStopFileOk, [.removeStopFile env.removeStopFileOk])
        else (st.stopFileExists, [])
      if env.watcherSpawnOk then
        let evts := cleared.2 ++ [Event.spawnWatcher]
        if env.workerSpawnOk then
          { result := .ok { job_id := job_id, pid := some env.workerPid,
                            watcher_pid := some env.watcherPid }
            state := { counter := counter1, registry := reg1, stopFileExists := cleared.1 }
            events := evts ++ [.spawnWorker] }
        else
          { result := .error (cliLaunchErrMsg env.workerErr)
            state := { counter := counter1, registry := reg1, stopFileExists := cleared.1 }
            events := evts ++ [.killWatcher] }
      else
        { result := .error (watcherLaunchErrMsg env.watcherErr)
          state := { counter := counter1, registry := reg1, stopFileExists := cleared.1 }
          events := cleared.2 }

/-- Replay of the stop-signal file's existence over an event trace: a
successful `removeStopFile` deletes it, a failed one leaves it in
place (the source ignores the error), other launch-path events leave
it alone. -/
def stopExistsAfter (init : Bool) : List Event → Bool
  | [] => init
  | .removeStopFile ok :: rest => stopExistsAfter (init && ! ok) rest
  | _ :: rest => stopExistsAfter init rest

/-- Liveness of the watcher child process: `tExit` is the time
(in 100ms units since the stop signal was written) at which the watcher
has exited, `none` if it never exits; the watcher has exited by time
`t` exactly when `tExit = some te` with `te ≤ t`. -/
def watcherExited (tExit : Option Nat) (t : Nat) : Bool :=
  match tExit with
  | none => false
  | some te => te ≤ t

/-- Outcome of one `watcher_child.try_wait()` call: `Ok(Some(_))`
(exit observed), `Ok(None)` (still running), or `Err(_)` (the OS wait
itself failed). -/
inductive TryWaitRes where
  | exitObserved
  | stillRunning
  | osError
deriving DecidableEq, Repr

/-- The watcher process and OS as seen through `try_wait`: `tExit` is
the watcher's exit time (100ms units, `none` = never exits) and
`twErr k` tells whether the k-th `try_wait` call made by the
coordinator fails at the OS level (the `Err(_)` arm). -/
structure WatcherEnv where
  tExit : Option Nat
  twErr : Nat → Bool

/-- The k-th `try_wait` call, made at time `t`: an OS failure when the
environment says so, otherwise an accurate report of liveness. -/
def try_wait (w : WatcherEnv) (k t : Nat) : TryWaitRes :=
  if w.twErr k then .osError
  else if watcherExited w.tExit t then .exitObserved else .stillRunning

/-- The grace loop `for _ in 0..20 { match try_wait ... }`
(main.rs:334-340): at each iteration poll `try_wait`; `Ok(Some)` and
`Err(_)` both break, `Ok(None)` sleeps 100ms (advance time by one
unit) and continues. Arguments: fuel, current time, index of the next
`try_wait` call; returns the time at which the loop stops, the next
call index after the loop, and the number of polls performed. -/
def grace_loop (w : WatcherEnv) : Nat → Nat → Nat → Nat × Nat × Nat
  | 0, t, k => (t, k, 0)
  | n + 1, t, k =>
    match try_wait w k t with
    | .stillRunning =>
      let rest := grace_loop w n (t + 1) (k + 1)
      (rest.1, rest.2.1, rest.2.2 + 1)
    | _ => (t, k + 1, 1)

/-- The final check after the grace loop,
`if let Ok(None) = watcher_child.try_wait()` (main.rs:341-344): the
watcher is killed and reaped exactly when that last `try_wait` returns
`Ok(None)`; on `Ok(Some)` it already exited, and on `Err(_)` the kill
is skipped. -/
def finishing_kill (w : WatcherEnv) : Bool :=
  match try_wait w (grace_loop w 20 0 0).2.1 (grace_loop w 20 0 0).1 with
  | .stillRunning => true
  | _ => false

/-- Registry contents over time for one job identifier, as performed by
the source: `run_moldock_async` inserts `(id, None)` at launch
(main.rs:228-230) and the single background task for that job inserts
the final value once, at its completion time `T` (main.rs:248-253 for
unpaired jobs, main.rs:311-331 for paired jobs); no other code writes
that identifier. -/
def registryAt (id : Nat) (T : Nat) (final : Option Int) (t : Nat) : Registry :=
  if t < T then Registry.insert [] id none
  else Registry.insert (Registry.insert [] id none) id final

/-- Paths as component lists, mirroring `PathBuf` built by `join`:
`root.join("state").join("progress.json")` appends components. -/
abbrev RPath := List String

/-- `Path::parent()`: drop the final component; `none` for the empty
(rootless) path. -/
def pathParent (p : RPath) : Option RPath :=
  if p.isEmpty then none else some p.dropLast

/-- `Path::starts_with(base)`: component-wise prefix test. -/
def pathStartsWith (p base : RPath) : Bool := base.isPrefixOf p

/-- `read_progress_file` (main.rs:424-436). The `canonicalize` OS call
and the file read are environment parameters: `canonRoot` is the
canonicalization outcome for the supplied project directory and
`readFile` the outcome of `fs::read_to_string` per path. -/
def read_progress_file (canonRoot : Except String RPath)
    (readFile : RPath → Except String String) : Except String String :=
  match canonRoot with
  | .error e => .error ("Invalid project path: " ++ e)
  | .ok root =>
    let progress_path := (root ++ ["state"]) ++ ["progress.json"]
    match pathParent progress_path with
    | none => .error "Could not resolve progress file parent directory."
    | some parent =>
      if pathStartsWith parent root then readFile progress_path
      else .error "Progress file path rejected (outside project directory)."

/-- The merged `PYTHONPATH` value computed by `with_repo_pythonpath`
(main.rs:71-80) when a repository root is discovered: `existing` is the
outcome of reading the pre-existing `PYTHONPATH` variable (`none` when
unset). The source joins with a literal `;` and treats a value that
trims to empty like an absent one. -/
def with_repo_pythonpath_merged (repo_str : String) (existing : Option String) :
    String :=
  match existing with
  | some e => if is_blank e then repo_str else repo_str ++ ";" ++ e
  | none => repo_str

/-- Follows the spec's words (§6, claim C9), for comparison with
`with_repo_pythonpath_merged`: the discovered repo root prepended,
joined with the platform's path separator `sep`, to any pre-existing
non-empty value, and the repo root alone when no prior value exists. -/
def specPythonpathMerged (sep : String) (repo_str : String)
    (existing : Option String) : String :=
  match existing with
  | some e => if e = "" then repo_str else repo_str ++ sep ++ e
  | none => repo_str

end MolDock

namespace MolDock

theorem registry_get_insert (r : Registry) (k : Nat) (v : Option Int) :
    (r.insert k v).get k = some v := by
  simp [Registry.get, Registry.insert, List.find?]

theorem registry_get_absent (r : Registry) (k : Nat)
    (h : ∀ p ∈ r, p.1 ≠ k) : r.get k = none := by
  have hf : List.find? (fun p => p.1 == k) r = none := by
    rw [List.find?_eq_none]
    intro p hp
    simpa using h p hp
  simp [Registry.get, hf]

theorem is_blank_runner_exit_code (s : String) :
    is_blank ("runner_exit_code=" ++ s) = false := by
  unfold is_blank
  rw [String.data_append, List.all_append]
  have h : ("runner_exit_code=").data.all (fun c => c.isWhitespace) = false := by
    decide
  rw [h, Bool.false_and]

/-- C2: for a paired job whose worker the coordinator waits on
successfully, exit code 0 or 2 yields stop-signal content exactly
`completed`; any other exit code yields `failed|runner_exit_code=<code>`;
and an OS-level wait failure yields `failed|runner_wait_failed`. -/
theorem c2_stop_signal_content (code : Int) :
    (code = 0 ∨ code = 2 →
      paired_stop_content (.exited (some code)) = "completed") ∧
    (code ≠ 0 → code ≠ 2 →
      paired_stop_content (.exited (some code)) =
        "failed|runner_exit_code=" ++ toString code) ∧
    paired_stop_content .waitErr = "failed|runner_wait_failed" := by
  refine ⟨?_, ?_, ?_⟩
  · rintro (rfl | rfl) <;> decide
  · intro h0 h2
    have hne : ¬ (code = 0 ∨ code = 2) := by
      rintro (rfl | rfl) <;> simp at h0 h2
    simp only [paired_stop_content, paired_finish, Option.getD_some, if_neg hne,
      write_stop_signal_payload, is_blank_runner_exit_code, Bool.false_eq_true,
      if_false]
    rw [← String.append_assoc]
    have hpref : ("failed" ++ "|" ++ "runner_exit_code=" : String) =
        "failed|runner_exit_code=" := by decide
    rw [hpref]
  · decide

theorem c2_stop_signal_content_witness :
    paired_stop_content (.exited (some 0)) = "completed" ∧
    paired_stop_content (.exited (some 5)) =
      "failed|runner_exit_code=" ++ toString (5 : Int) :=
  ⟨(c2_stop_signal_content 0).1 (Or.inl rfl),
    (c2_stop_signal_content 5).2.1 (by decide) (by decide)⟩

/-- C3: `get_run_job_status` has exactly three outcomes: identifiers
bound to no registry entry (in particular never-issued ones) report
`found=false, running=false, exit_code=None`; an entry with no exit
code reports `found=true, running=true, exit_code=None`; an entry with
exit code `code` reports `found=true, running=false,
exit_code=Some code`. -/
theorem c3_status_query_outcomes (r : Registry) (id : Nat) :
    ((∀ p ∈ r, p.1 ≠ id) →
      get_run_job_status r id =
        { found := false, running := false, exit_code := none }) ∧
    (r.get id = some none →
      get_run_job_status r id =
        { found := true, running := true, exit_code := none }) ∧
    (∀ code : Int, r.get id = some (some code) →
      get_run_job_status r id =
        { found := true, running := false, exit_code := some code }) := by
  refine ⟨?_, ?_, ?_⟩
  · intro h
    unfold get_run_job_status
    rw [registry_get_absent r id h]
  · intro h
    unfold get_run_job_status
    rw [h]
  · intro code h
    unfold get_run_job_status
    rw [h]

theorem c3_status_query_outcomes_witness :
    get_run_job_status [] 7 =
      { found := false, running := false, exit_code := none } ∧
    get_run_job_status [(3, some 5)] 3 =
      { found := true, running := false, exit_code := some 5 } :=
  ⟨(c3_status_query_outcomes [] 7).1 (by simp),
    (c3_status_query_outcomes [(3, some 5)] 3).2.2 5 (by decide)⟩

/-- C6 counterexample: an unpaired job whose OS-level wait fails has the
background task insert `child.wait().ok().and_then(|s| s.code())`,
which is `None` — the registry entry stays in the running state with
exit code unset, not a fallback numeric exit code as the claim states
for unpaired jobs. -/
theorem c6_counterexample :
    unpaired_finish .waitErr = none ∧
    get_run_job_status
      (Registry.insert (Registry.insert [] 1 none) 1 (unpaired_finish .waitErr)) 1 =
      { found := true, running := true, exit_code := none } := by
  decide

/-- C6 amended: only for paired jobs does an OS-level wait failure
record the fallback exit code 1 (the entry ends in the exited state
with `exit_code=Some 1`); for unpaired jobs the wait failure leaves the
entry with exit code unset, still reported as running. -/
theorem c6_wait_failure_fallback :
    (paired_finish .waitErr).1 = some 1 ∧
    get_run_job_status
      (Registry.insert (Registry.insert [] 1 none) 1 (paired_finish .waitErr).1) 1 =
      { found := true, running := false, exit_code := some 1 } ∧
    unpaired_finish .waitErr = none := by
  decide

/-- C9 counterexample: the code joins with a literal `;` even where the
platform path separator is `:`, and a whitespace-only (hence non-empty)
pre-existing value is dropped rather than joined — both diverge from
the spec-worded merge. -/
theorem c9_counterexample :
    specPythonpathMerged ":" "/repo" (some "x") ≠
      with_repo_pythonpath_merged "/repo" (some "x") ∧
    specPythonpathMerged ";" "/repo" (some " ") ≠
      with_repo_pythonpath_merged "/repo" (some " ") := by
  refine ⟨?_, ?_⟩ <;> decide

/-- C9 amended: the merged search path is the repo root joined with a
literal `;` (the Windows path-list separator, on every platform) to a
pre-existing value that is non-empty after trimming whitespace; a
whitespace-only or absent prior value yields the repo root alone. -/
theorem c9_pythonpath_merge (repo e : String) :
    with_repo_pythonpath_merged repo none = repo ∧
    (is_blank e = true → with_repo_pythonpath_merged repo (some e) = repo) ∧
    (is_blank e = false →
      with_repo_pythonpath_merged repo (some e) =
        specPythonpathMerged ";" repo (some e)) := by
  refine ⟨rfl, ?_, ?_⟩
  · intro h
    simp [with_repo_pythonpath_merged, h]
  · intro h
    have hne : e ≠ "" := by
      rintro rfl
      simp [is_blank] at h
    simp [with_repo_pythonpath_merged, specPythonpathMerged, h, hne]

theorem c9_pythonpath_merge_witness :
    with_repo_pythonpath_merged "/r" (some "x") =
      specPythonpathMerged ";" "/r" (some "x") :=
  (c9_pythonpath_merge "/r" "x").2.2 (by decide)

/-- C10: when canonicalization of the project directory succeeds,
`read_progress_file` reduces to the plain file read of
`<root>/state/progress.json` — the confinement check compares the
parent `<root>/state` against `<root>`, which always holds, so the
"Progress file path rejected" branch (and the parent-resolution error)
is unreachable, leaving canonicalization failure and read failure as
the only failure modes. -/
theorem c10_rejection_unreachable (root : RPath)
    (rf : RPath → Except String String) :
    read_progress_file (.ok root) rf = rf (root ++ ["state", "progress.json"]) := by
  unfold read_progress_file pathParent pathStartsWith
  have hne : ((root ++ ["state"]) ++ ["progress.json"]).isEmpty = false := by
    simp
  have hdrop : ((root ++ ["state"]) ++ ["progress.json"]).dropLast = root ++ ["state"] := by
    simp
  have hpre : root.isPrefixOf (root ++ ["state"]) = true := by
    induction root with
    | nil => rfl
    | cons a l ih => simp [List.isPrefixOf, ih]
  simp [hne, hdrop, hpre]

/-- C5: per-job registry state is monotone. Over the write timeline of
a single job identifier (launch insert of `None`, one completion insert
at time `T` by the unique background task for that job), once a status
query has returned `running=false, exit_code=Some code`, every later
query returns the same result. -/
theorem c5_status_monotone (id T : Nat) (final : Option Int) (t1 t2 : Nat)
    (c : Int) (hle : t1 ≤ t2)
    (h : get_run_job_status (registryAt id T final t1) id =
      { found := true, running := false, exit_code := some c }) :
    get_run_job_status (registryAt id T final t2) id =
      { found := true, running := false, exit_code := some c } := by
  unfold registryAt at h ⊢
  by_cases h1 : t1 < T
  · rw [if_pos h1] at h
    unfold get_run_job_status at h
    rw [registry_get_insert] at h
    simp at h
  · rw [if_neg h1] at h
    unfold get_run_job_status at h
    rw [registry_get_insert] at h
    have h2 : ¬ t2 < T := by omega
    rw [if_neg h2]
    unfold get_run_job_status
    rw [registry_get_insert]
    cases final with
    | none => simp at h
    | some a =>
      simp only [RunJobStatus.mk.injEq] at h
      simp [h.2.2]

theorem c5_status_monotone_witness :
    get_run_job_status (registryAt 1 0 (some 0) 1) 1 =
      { found := true, running := false, exit_code := some 0 } :=
  c5_status_monotone 1 0 (some 0) 0 1 0 (by decide) (by decide)

theorem grace_loop_time_le (w : WatcherEnv) :
    ∀ (n t k : Nat), (grace_loop w n t k).1 ≤ t + n := by
  intro n
  induction n with
  | zero => intro t k; simp [grace_loop]
  | succ m ih =>
    intro t k
    unfold grace_loop
    cases htw : try_wait w k t with
    | stillRunning =>
      have ih1 := ih (t + 1) (k + 1)
      show (grace_loop w m (t + 1) (k + 1)).1 ≤ t + (m + 1)
      omega
    | exitObserved =>
      show t ≤ t + (m + 1)
      omega
    | osError =>
      show t ≤ t + (m + 1)
      omega

theorem grace_loop_polls_le (w : WatcherEnv) :
    ∀ (n t k : Nat), (grace_loop w n t k).2.2 ≤ n := by
  intro n
  induction n with
  | zero => intro t k; simp [grace_loop]
  | succ m ih =>
    intro t k
    unfold grace_loop
    cases htw : try_wait w k t with
    | stillRunning =>
      have ih1 := ih (t + 1) (k + 1)
      show (grace_loop w m (t + 1) (k + 1)).2.2 + 1 ≤ m + 1
      omega
    | exitObserved =>
      show 1 ≤ m + 1
      omega
    | osError =>
      show 1 ≤ m + 1
      omega

theorem watcherExited_mono (tExit : Option Nat) (t t' : Nat) (hle : t ≤ t')
    (h : watcherExited tExit t = true) : watcherExited tExit t' = true := by
  cases tExit with
  | none => simp [watcherExited] at h
  | some te =>
    simp only [watcherExited, decide_eq_true_eq] at h ⊢
    omega

theorem try_wait_no_err (w : WatcherEnv) (herr : ∀ j, w.twErr j = false)
    (k t : Nat) :
    try_wait w k t =
      (if watcherExited w.tExit t then TryWaitRes.exitObserved
       else TryWaitRes.stillRunning) := by
  unfold try_wait
  rw [herr k]
  simp

/-- C8 counterexample: when `try_wait` fails at the OS level the loop
breaks on its `Err(_)` arm and the final `if let Ok(None)` check does
not match either, so the kill is skipped even though the watcher is
still alive at the end of the grace window — refuting "unconditionally
force-terminated … never outlives the window without being killed". -/
theorem c8_counterexample :
    watcherExited (WatcherEnv.mk none (fun _ => true)).tExit 20 = false ∧
    finishing_kill (WatcherEnv.mk none (fun _ => true)) = false := by
  exact ⟨rfl, rfl⟩

/-- C8 (amended): after writing the stop signal the coordinator polls
the watcher at most 20 times, each separated by a 100ms sleep (time is
in 100ms units, so the loop window is at most 2 seconds).  Provided no
`try_wait` call fails at the OS level, a watcher still alive at the
end of that window is force-terminated and reaped, and the kill is
skipped only when the watcher exited on its own within the window;
when a `try_wait` call returns `Err(_)` the coordinator gives up and a
live watcher may be left unkilled. -/
theorem c8_watcher_grace_window (w : WatcherEnv) :
    (grace_loop w 20 0 0).2.2 ≤ 20 ∧
    (grace_loop w 20 0 0).1 ≤ 20 ∧
    ((∀ j, w.twErr j = false) →
      (watcherExited w.tExit 20 = false → finishing_kill w = true) ∧
      (finishing_kill w = false → ∃ te, w.tExit = some te ∧ te ≤ 20)) := by
  refine ⟨grace_loop_polls_le w 20 0 0, ?_, ?_⟩
  · simpa using grace_loop_time_le w 20 0 0
  · intro herr
    have hend : (grace_loop w 20 0 0).1 ≤ 20 := by
      simpa using grace_loop_time_le w 20 0 0
    have htw := try_wait_no_err w herr (grace_loop w 20 0 0).2.1 (grace_loop w 20 0 0).1
    constructor
    · intro h20
      unfold finishing_kill
      rw [htw]
      by_cases he : watcherExited w.tExit (grace_loop w 20 0 0).1 = true
      · have := watcherExited_mono w.tExit _ 20 hend he
        rw [this] at h20
        exact absurd h20 (by simp)
      · simp only [Bool.not_eq_true] at he
        rw [he]
        rfl
    · intro hk
      unfold finishing_kill at hk
      rw [htw] at hk
      by_cases he : watcherExited w.tExit (grace_loop w 20 0 0).1 = true
      · cases hx : w.tExit with
        | none => rw [hx] at he; simp [watcherExited] at he
        | some te =>
          refine ⟨te, rfl, ?_⟩
          rw [hx] at he
          simp only [watcherExited, decide_eq_true_eq] at he
          omega
      · simp only [Bool.not_eq_true] at he
        rw [he] at hk
        simp at hk

theorem c8_watcher_grace_window_witness :
    finishing_kill (WatcherEnv.mk none (fun _ => false)) = true :=
  ((c8_watcher_grace_window (WatcherEnv.mk none (fun _ => false))).2.2
    (fun _ => rfl)).1 (by decide)

theorem run_async_registry (env : AsyncEnv) (st : AsyncState) (args : List String)
    (cwd : Option String) :
    (run_moldock_async env st args cwd).state.registry =
      st.registry.insert st.counter none := by
  unfold run_moldock_async
  by_cases hr : args.head? == some "run" <;>
    rcases hres : resolve_project_dir_from_args args cwd with _ | d <;>
    by_cases hk : env.workerSpawnOk <;>
    by_cases hw : env.watcherSpawnOk <;>
    by_cases hs : st.stopFileExists <;>
    simp [hr, hres, hk, hw, hs, Registry.insert]

theorem run_async_ok_job_id (env : AsyncEnv) (st : AsyncState) (args : List String)
    (cwd : Option String) (job : RunJob)
    (h : (run_moldock_async env st args cwd).result = .ok job) :
    job.job_id = st.counter := by
  unfold run_moldock_async at h
  by_cases hr : args.head? == some "run" <;>
    rcases hres : resolve_project_dir_from_args args cwd with _ | d <;>
    by_cases hk : env.workerSpawnOk <;>
    by_cases hw : env.watcherSpawnOk <;>
    by_cases hs : st.stopFileExists <;>
    simp [hr, hres, hk, hw, hs] at h <;>
    rw [← h]

/-- C4: for every job returned by a successful `run_moldock_async`
call, the registry entry for its identifier is present in the running
state (exit code unset) at the moment the call returns, so an immediate
status query (before the coordinator records an exit) reports
`found=true, running=true, exit_code=None`. -/
theorem c4_issued_id_registered (env : AsyncEnv) (st : AsyncState)
    (args : List String) (cwd : Option String) (job : RunJob)
    (h : (run_moldock_async env st args cwd).result = .ok job) :
    get_run_job_status (run_moldock_async env st args cwd).state.registry
      job.job_id = { found := true, running := true, exit_code := none } := by
  rw [run_async_registry env st args cwd, run_async_ok_job_id env st args cwd job h]
  unfold get_run_job_status
  rw [registry_get_insert]

theorem c4_issued_id_registered_witness :
    get_run_job_status
      (run_moldock_async ⟨true, true, 8, 7, "", "", true⟩ ⟨1, [], false⟩ ["run", "p"] none).state.registry
      ((⟨1, some 7, some 8⟩ : RunJob).job_id) =
      { found := true, running := true, exit_code := none } :=
  c4_issued_id_registered ⟨true, true, 8, 7, "", "", true⟩ ⟨1, [], false⟩ ["run", "p"] none
    ⟨1, some 7, some 8⟩ (by decide)

/-- C1 counterexample: a paired launch whose watcher spawns but whose
worker fails to spawn returns the `LaunchFailure` error, yet starting
from an empty registry the registry is NOT left unchanged — the job
identifier allocated at the top of the call remains registered (in the
running state), refuting the claim's "the job registry is left
unchanged (no job id is registered for the failed launch)". -/
theorem c1_counterexample :
    (run_moldock_async ⟨true, false, 8, 7, "w", "boom", true⟩ ⟨1, [], false⟩ ["run", "p"] none).result =
      .error (cliLaunchErrMsg "boom") ∧
    (run_moldock_async ⟨true, false, 8, 7, "w", "boom", true⟩ ⟨1, [], false⟩ ["run", "p"] none).state.registry ≠
      ([] : Registry) ∧
    (run_moldock_async ⟨true, false, 8, 7, "w", "boom", true⟩ ⟨1, [], false⟩ ["run", "p"] none).state.registry.get 1 =
      some none := by
  refine ⟨?_, ?_, ?_⟩ <;> decide

/-- C1 (amended): when the watcher spawns but the worker fails to
spawn, `run_moldock_async` force-terminates the watcher and returns the
`LaunchFailure` error with no job identifier; the registry, however, is
not left unchanged: the job identifier pre-allocated at the start of
the call (never returned to the caller) remains registered in the
running state. -/
theorem c1_worker_spawn_failure (env : AsyncEnv) (st : AsyncState)
    (args : List String) (cwd : Option String) (d : String)
    (hw : env.watcherSpawnOk = true) (hk : env.workerSpawnOk = false)
    (hrun : args.head? = some "run")
    (hres : resolve_project_dir_from_args args cwd = some d) :
    (run_moldock_async env st args cwd).result = .error (cliLaunchErrMsg env.workerErr) ∧
    Event.killWatcher ∈ (run_moldock_async env st args cwd).events ∧
    (run_moldock_async env st args cwd).state.registry.get st.counter = some none := by
  by_cases hs : st.stopFileExists <;>
    simp [run_moldock_async, hrun, hres, hw, hk, hs, registry_get_insert]

theorem c1_worker_spawn_failure_witness :
    (run_moldock_async ⟨true, false, 8, 7, "w", "boom", true⟩ ⟨5, [], true⟩ ["run", "p"] none).result =
      .error (cliLaunchErrMsg "boom") ∧
    Event.killWatcher ∈
      (run_moldock_async ⟨true, false, 8, 7, "w", "boom", true⟩ ⟨5, [], true⟩ ["run", "p"] none).events ∧
    (run_moldock_async ⟨true, false, 8, 7, "w", "boom", true⟩ ⟨5, [], true⟩ ["run", "p"] none).state.registry.get 5 =
      some none :=
  c1_worker_spawn_failure ⟨true, false, 8, 7, "w", "boom", true⟩ ⟨5, [], true⟩ ["run", "p"] none "p"
    rfl rfl rfl (by decide)

/-- C7 counterexample: the delete of the stale stop-signal file is
best-effort — `let _ = fs::remove_file(&stop_file)` (main.rs:264-266)
ignores the removal's result — so when the OS removal fails the stale
file still exists at the moment the watcher process is spawned and the
new watcher CAN observe a signal written by a previous run, refuting
the claim's "is deleted before the new watcher process is started, so
the new watcher can never observe a signal written by a previous
run". -/
theorem c7_counterexample :
    (run_moldock_async ⟨true, true, 8, 7, "", "", false⟩ ⟨1, [], true⟩ ["run", "p"] none).events.get? 1 =
      some Event.spawnWatcher ∧
    stopExistsAfter true
      ((run_moldock_async ⟨true, true, 8, 7, "", "", false⟩ ⟨1, [], true⟩ ["run", "p"] none).events.take 1) =
      true := by
  refine ⟨?_, ?_⟩ <;> decide

/-- C7 (amended): on every paired launch that reaches the watcher
spawn, deletion of a pre-existing stop-signal file is attempted before
the watcher process is started (the `removeStopFile` attempt precedes
`spawnWatcher` in the trace), and whenever that removal succeeds — or
no stale file existed — the stop-signal file is absent at the moment
the watcher starts, so the new watcher cannot observe a signal written
by a previous run; a failed removal is silently ignored and the stale
file may then remain visible to the new watcher. -/
theorem c7_stale_signal_best_effort (env : AsyncEnv) (st : AsyncState)
    (args : List String) (cwd : Option String) (d : String)
    (hw : env.watcherSpawnOk = true)
    (hrun : args.head? = some "run")
    (hres : resolve_project_dir_from_args args cwd = some d) :
    ∃ i, (run_moldock_async env st args cwd).events.get? i = some Event.spawnWatcher ∧
      (st.stopFileExists = true →
        Event.removeStopFile env.removeStopFileOk ∈
          (run_moldock_async env st args cwd).events.take i) ∧
      (env.removeStopFileOk = true ∨ st.stopFileExists = false →
        stopExistsAfter st.stopFileExists
          ((run_moldock_async env st args cwd).events.take i) = false) := by
  by_cases hs : st.stopFileExists
  · refine ⟨1, ?_, ?_, ?_⟩
    · by_cases hk : env.workerSpawnOk <;>
        simp [run_moldock_async, hrun, hres, hw, hk, hs]
    · intro _
      by_cases hk : env.workerSpawnOk <;>
        simp [run_moldock_async, hrun, hres, hw, hk, hs]
    · rintro (hok | habs)
      · by_cases hk : env.workerSpawnOk <;>
          simp [run_moldock_async, hrun, hres, hw, hk, hs, hok, stopExistsAfter]
      · rw [habs] at hs
        exact absurd hs (by simp)
  · refine ⟨0, ?_, ?_, ?_⟩
    · by_cases hk : env.workerSpawnOk <;>
        simp [run_moldock_async, hrun, hres, hw, hk, hs]
    · intro hcontra
      exact absurd hcontra hs
    · intro _
      by_cases hk : env.workerSpawnOk <;>
        simp [run_moldock_async, hrun, hres, hw, hk, hs, stopExistsAfter]

theorem c7_stale_signal_best_effort_witness :
    ∃ i, (run_moldock_async ⟨true, true, 8, 7, "", "", true⟩ ⟨1, [], true⟩ ["run", "p"] none).events.get? i =
        some Event.spawnWatcher ∧
      (true = true →
        Event.removeStopFile true ∈
          (run_moldock_async ⟨true, true, 8, 7, "", "", true⟩ ⟨1, [], true⟩ ["run", "p"] none).events.take i) ∧
      (true = true ∨ true = false →
        stopExistsAfter true
          ((run_moldock_async ⟨true, true, 8, 7, "", "", true⟩ ⟨1, [], true⟩ ["run", "p"] none).events.take i) = false) :=
  c7_stale_signal_best_effort ⟨true, true, 8, 7, "", "", true⟩ ⟨1, [], true⟩ ["run", "p"] none "p"
    rfl rfl (by decide)

end MolDock
